import Mathlib

/-!
Verification of the Xer0byteAII chat-assistant server and client against its
specification.  The repository ships three server variants — two Express +
mongoose servers (`server.ts` and the unnamed `part_001`) and an Express +
better-sqlite3 server (`part_002`) — plus a React single-page client
(`App.tsx` / `part_000`).  The definitions below are shallow embeddings of the
route handlers and client state, with external effects (the Gemini model
calls, bcrypt, random numbers, the clock) passed in as explicit parameters.
-/

/-- A value stored in the password column of the users store, tagged by
provenance: `hashed p` is the bcrypt hash of the plaintext `p` (the output of
`bcrypt.hash(p, 10)`), `plain p` is the plaintext `p` stored verbatim.  Bcrypt
hashes are modelled as distinct from every plaintext (bcrypt output has its
own `$2a$...` format), and distinct hashes come from distinct plaintexts
(ideal collision-free hash). -/
inductive StoredPassword
  | hashed (p : String)
  | plain (p : String)
deriving DecidableEq

/-- `bcrypt.hash(password, 10)` as used by the mongoose signup handlers. -/
def bcryptHash (password : String) : StoredPassword := .hashed password

/-- `bcrypt.compare(candidate, stored)`: true iff `stored` is the bcrypt hash
of `candidate`.  A plaintext-stored value is not a valid bcrypt hash, so
comparison against it fails. -/
def bcryptCompare (candidate : String) : StoredPassword → Bool
  | .hashed p => candidate == p
  | .plain _ => false

/-- Whether a stored password value is a bcrypt hash. -/
def isBcryptHashed : StoredPassword → Bool
  | .hashed _ => true
  | .plain _ => false

/-- A document of the mongoose `User` model (server.ts lines 25-30). -/
structure User where
  id : Nat
  name : String
  email : String
  password : StoredPassword
  avatarColor : String
deriving DecidableEq

/-- A document of the mongoose `Conversation` model (server.ts lines 32-36). -/
structure Conversation where
  id : Nat
  userId : Nat
  title : String
  updatedAt : Nat
deriving DecidableEq

/-- A document of the mongoose `Message` model (server.ts lines 38-44). -/
structure Message where
  conversationId : Nat
  userId : Nat
  role : String
  text : String
  timestamp : Nat
deriving DecidableEq

/-- A document of the mongoose `Project` model (server.ts lines 46-52). -/
structure Project where
  id : Nat
  userId : Nat
  name : String
  description : String
  content : String
  createdAt : Nat
deriving DecidableEq

/-- A document of the mongoose `Task` model (server.ts lines 54-59).  Named
`TaskItem` because `Task` is already taken by the Lean core library. -/
structure TaskItem where
  id : Nat
  userId : Nat
  title : String
  completed : Bool
  createdAt : Nat
deriving DecidableEq

/-- The five MongoDB collections backing the mongoose servers. -/
structure ServerState where
  users : List User
  conversations : List Conversation
  messages : List Message
  projects : List Project
  tasks : List TaskItem
deriving DecidableEq

/-- An Express response as produced by the handlers: either `res.json(body)`
(status 200) or `res.status(status).json(\x7b error \x7d)`. -/
inductive ApiResponse (α : Type)
  | ok (body : α)
  | err (status : Nat) (error : String)
deriving DecidableEq

/-- Outcome of the `authenticateToken` middleware: either a response sent
without reaching the route handler, or `req.user` populated from the token. -/
inductive AuthOutcome
  | denied (status : Nat) (error : String)
  | authed (userId : Nat)
deriving DecidableEq

/-- The `authenticateToken` middleware (server.ts lines 71-82): `token` is the
second word of the Authorization header if present, `verify` is
`jwt.verify(·, JWT_SECRET)` returning the token's user id on success. -/
def authenticateToken (token : Option String) (verify : String → Option Nat) :
    AuthOutcome :=
  match token with
  | none => .denied 401 "Access denied. Token missing."
  | some t =>
    match verify t with
    | none => .denied 403 "Invalid token."
    | some uid => .authed uid

/-- The avatar color palette of the signup handlers. -/
def signupColors : List String :=
  ["#4a90e2", "#e24a4a", "#4ae285", "#e2a74a", "#9b4ae2"]

/-- The user object returned by the auth endpoints. -/
structure AuthOk where
  userId : Nat
  name : String
  email : String
  avatarColor : String
deriving DecidableEq

/-- POST /api/auth/signup of the mongoose servers (server.ts lines 92-112).
`randIdx` stands for the `Math.random()` draw choosing the avatar color and
`freshId` for the ObjectId MongoDB assigns to the new document. -/
def signupHandler (st : ServerState) (name email password : String)
    (randIdx freshId : Nat) : ServerState × ApiResponse AuthOk :=
  if name = "" ∨ email = "" ∨ password = "" then
    (st, .err 400 "Missing fields")
  else
    match st.users.find? (fun u => u.email == email) with
    | some _ => (st, .err 400 "Email already exists")
    | none =>
      let hashedPassword := bcryptHash password
      let avatarColor :=
        ((signupColors.get? (randIdx % signupColors.length)).getD "#4a90e2")
      let user : User := ⟨freshId, name, email, hashedPassword, avatarColor⟩
      ({ st with users := st.users ++ [user] },
        .ok ⟨freshId, name, email, avatarColor⟩)

/-- POST /api/auth/login of the mongoose servers (server.ts lines 114-128):
look the user up by email, then check the password with `bcrypt.compare`. -/
def loginHandler (st : ServerState) (email password : String) :
    ApiResponse AuthOk :=
  match st.users.find? (fun u => u.email == email) with
  | none => .err 401 "Invalid credentials"
  | some user =>
    if bcryptCompare password user.password then
      .ok ⟨user.id, user.name, user.email, user.avatarColor⟩
    else
      .err 401 "Invalid credentials"

/-- An entry of the `history` array of a chat request body. -/
structure HistMsg where
  role : String
  text : String
deriving DecidableEq

/-- A history entry in the format sent to `model.startChat`. -/
structure GeminiMsg where
  role : String
  text : String
deriving DecidableEq

/-- The history mapping of the chat handler (server.ts lines 146-149). -/
def formatHistory (history : List HistMsg) : List GeminiMsg :=
  history.map (fun m => ⟨if m.role == "user" then "user" else "model", m.text⟩)

/-- The success body of POST /api/chat. -/
structure ChatOk where
  text : String
deriving DecidableEq

/-- POST /api/chat of the mongoose servers (server.ts lines 131-164), run
after `authenticateToken` put the token's id in `userId`.  `sendMessage`
stands for `model.startChat(\x7b history \x7d)` followed by
`chat.sendMessage(text)`; it receives the formatted history and the new text
and either returns the model's reply text or throws.  `now` is the clock. -/
def chatHandler (st : ServerState) (userId conversationId : Nat)
    (text : String) (history : List HistMsg) (now : Nat)
    (sendMessage : List GeminiMsg → String → Except String String) :
    ServerState × ApiResponse ChatOk :=
  if text = "" then
    (st, .err 400 "Message text is required")
  else
    let userMsg : Message := ⟨conversationId, userId, "user", text, now⟩
    let st1 := { st with messages := st.messages ++ [userMsg] }
    let st2 := { st1 with
      conversations := st1.conversations.map (fun c =>
        if c.id = conversationId then { c with updatedAt := now } else c) }
    match sendMessage (formatHistory history) text with
    | .error _ => (st2, .err 500 "Failed to get AI response")
    | .ok aiText =>
      let aiMsg : Message := ⟨conversationId, userId, "ai", aiText, now⟩
      ({ st2 with messages := st2.messages ++ [aiMsg] }, .ok ⟨aiText⟩)

/-- A part of a Gemini response candidate: plain text, or inline image data
with a mime type (the `part.inlineData` of part_001 lines 199-208). -/
inductive GenPart
  | textPart (t : String)
  | inlinePart (mimeType : String) (data : String)
deriving DecidableEq

/-- The scan of part_001 lines 202-207: the first part carrying inline image
data, if any. -/
def findInline : List GenPart → Option (String × String)
  | [] => none
  | .textPart _ :: rest => findInline rest
  | .inlinePart m d :: _ => some (m, d)

/-- The success body of POST /api/generate-image. -/
structure ImageOk where
  imageUrl : String
deriving DecidableEq

/-- POST /api/generate-image of part_001 (lines 193-215).  `generateContent`
stands for `imageModel.generateContent(prompt)`: it throws, or returns
`result.response.candidates?.[0]?.content?.parts` (possibly absent). -/
def generateImageHandler (prompt : String)
    (generateContent : String → Except String (Option (List GenPart))) :
    ApiResponse ImageOk :=
  if prompt = "" then .err 400 "Prompt is required"
  else
    match generateContent prompt with
    | .error _ => .err 500 "Image generation failed"
    | .ok none => .err 500 "No image generated in response"
    | .ok (some parts) =>
      match findInline parts with
      | some (m, d) => .ok ⟨"data:" ++ m ++ ";base64," ++ d⟩
      | none => .err 500 "No image generated in response"

/-- POST /api/generate-image of server.ts (lines 166-192): after validating
the prompt and awaiting `generateContent`, it unconditionally answers 501. -/
def generateImageHandlerLegacy (prompt : String)
    (generateContent : String → Except String (Option (List GenPart))) :
    ApiResponse ImageOk :=
  if prompt = "" then .err 400 "Prompt is required"
  else
    match generateContent prompt with
    | .error _ => .err 500 "Image generation failed"
    | .ok _ =>
      .err 501 "Image generation not yet implemented on backend with this model."

/-- Insert `a` into `l` before the first element `b` with `le a b`. -/
def insertSorted (le : α → α → Bool) (a : α) : List α → List α
  | [] => [a]
  | b :: bs => if le a b then a :: b :: bs else b :: insertSorted le a bs

/-- Insertion sort by the boolean order `le`; models the `.sort(...)` of the
mongoose find queries. -/
def sortBy (le : α → α → Bool) (l : List α) : List α :=
  l.foldr (insertSorted le) []

/-- The `convs` result of GET /api/conversations (server.ts line 197): the
requesting user's conversations, most recently updated first. -/
def conversationsFor (st : ServerState) (uid : Nat) : List Conversation :=
  sortBy (fun a b => Nat.ble b.updatedAt a.updatedAt)
    (st.conversations.filter (fun c => c.userId == uid))

/-- An element of the response array of GET /api/conversations. -/
structure ConvSummary where
  id : Nat
  title : String
  updated_at : Nat
deriving DecidableEq

/-- GET /api/conversations of the mongoose servers (server.ts lines 195-202),
run after `authenticateToken`. -/
def getConversations (st : ServerState) (uid : Nat) : List ConvSummary :=
  (conversationsFor st uid).map (fun c => ⟨c.id, c.title, c.updatedAt⟩)

/-- POST /api/conversations (server.ts lines 204-213).  `freshId` is the
ObjectId assigned to the new document, `now` the `updatedAt` default. -/
def postConversation (st : ServerState) (uid : Nat) (title : String)
    (now freshId : Nat) : ServerState × ApiResponse (Nat × String) :=
  let t := if title = "" then "New Chat" else title
  let conv : Conversation := ⟨freshId, uid, t, now⟩
  ({ st with conversations := st.conversations ++ [conv] }, .ok (freshId, t))

/-- GET /api/messages (server.ts lines 227-235): the requesting user's
messages in the given conversation, oldest first. -/
def getMessages (st : ServerState) (uid conversationId : Nat) : List Message :=
  sortBy (fun a b => Nat.ble a.timestamp b.timestamp)
    (st.messages.filter (fun m =>
      m.userId == uid && m.conversationId == conversationId))

/-- GET /api/projects (server.ts lines 238-245): the requesting user's
projects, newest first. -/
def getProjects (st : ServerState) (uid : Nat) : List Project :=
  sortBy (fun a b => Nat.ble b.createdAt a.createdAt)
    (st.projects.filter (fun p => p.userId == uid))

/-- POST /api/projects (server.ts lines 247-256). -/
def postProject (st : ServerState) (uid : Nat)
    (name description content : String) (now freshId : Nat) :
    ServerState × ApiResponse Project :=
  let project : Project := ⟨freshId, uid, name, description, content, now⟩
  ({ st with projects := st.projects ++ [project] }, .ok project)

/-- GET /api/tasks (server.ts lines 259-266): the requesting user's tasks,
newest first. -/
def getTasks (st : ServerState) (uid : Nat) : List TaskItem :=
  sortBy (fun a b => Nat.ble b.createdAt a.createdAt)
    (st.tasks.filter (fun t => t.userId == uid))

/-- POST /api/tasks (server.ts lines 268-277); `completed` defaults false. -/
def postTask (st : ServerState) (uid : Nat) (title : String)
    (now freshId : Nat) : ServerState × ApiResponse TaskItem :=
  let task : TaskItem := ⟨freshId, uid, title, false, now⟩
  ({ st with tasks := st.tasks ++ [task] }, .ok task)

/-- A row of the SQLite `users` table of part_002 (lines 12-18); the
`password` column holds whatever TEXT the signup handler inserted. -/
structure SUser where
  id : Nat
  name : String
  email : String
  password : StoredPassword
  avatarColor : String
deriving DecidableEq

/-- POST /api/auth/signup of the SQLite server (part_002 lines 66-87): the
raw request password is inserted into the `password` column unchanged; a
unique-constraint violation on the email surfaces through the catch as a
400 (see `sqliteSignupCatch`). -/
def sqliteSignup (users : List SUser) (name email password : String)
    (randIdx freshId : Nat) : List SUser × ApiResponse AuthOk :=
  if name = "" ∨ email = "" ∨ password = "" then
    (users, .err 400 "Missing fields")
  else if users.any (fun u => u.email == email) then
    (users, .err 400 "Email already exists")
  else
    let avatarColor :=
      ((signupColors.get? (randIdx % signupColors.length)).getD "#4a90e2")
    let user : SUser := ⟨freshId, name, email, .plain password, avatarColor⟩
    (users ++ [user], .ok ⟨freshId, name, email, avatarColor⟩)

/-- POST /api/auth/login of the SQLite server (part_002 lines 89-102):
`SELECT ... WHERE email = ? AND password = ?` — the stored TEXT is compared
for equality with the raw request password. -/
def sqliteLogin (users : List SUser) (email password : String) :
    ApiResponse AuthOk :=
  match users.find? (fun u =>
      u.email == email && u.password == StoredPassword.plain password) with
  | some u => .ok ⟨u.id, u.name, u.email, u.avatarColor⟩
  | none => .err 401 "Invalid credentials"

/-- The catch block of the SQLite signup (part_002 lines 80-86): it inspects
the thrown error's code and answers 400 on a unique-constraint violation,
500 otherwise. -/
def sqliteSignupCatch (errCode : String) : Nat × String :=
  if errCode = "SQLITE_CONSTRAINT_UNIQUE" then (400, "Email already exists")
  else (500, "Failed to sign up")

/-- The `(status, error)` pairs sent by the catch blocks of every mongoose
route (server.ts: signup, login, chat, generate-image, conversations
GET/POST/DELETE, messages GET, projects GET/POST, tasks GET/POST/PATCH). -/
def mongooseCatchResponses : List (Nat × String) :=
  [(500, "Signup failed"), (500, "Login failed"),
   (500, "Failed to get AI response"), (500, "Image generation failed"),
   (500, "Failed to fetch conversations"), (500, "Failed to create conversation"),
   (500, "Failed to delete conversation"), (500, "Failed to fetch messages"),
   (500, "Failed to fetch projects"), (500, "Failed to create project"),
   (500, "Failed to fetch tasks"), (500, "Failed to create task"),
   (500, "Failed to update task")]

/-- The `(status, error)` pairs sent by the catch blocks of the SQLite routes
other than signup (part_002: login, conversations GET/POST/DELETE, messages
GET/POST/DELETE, projects GET/POST, tasks GET/POST/PATCH). -/
def sqliteOtherCatchResponses : List (Nat × String) :=
  [(500, "Failed to log in"),
   (500, "Failed to fetch conversations"), (500, "Failed to create conversation"),
   (500, "Failed to delete conversation"), (500, "Failed to fetch messages"),
   (500, "Failed to save message"), (500, "Failed to delete messages"),
   (500, "Failed to fetch projects"), (500, "Failed to create project"),
   (500, "Failed to fetch tasks"), (500, "Failed to create task"),
   (500, "Failed to update task")]

/-- The mouse state read by the particle animation (App.tsx lines 19-32):
coordinates are null until the mouse moves and after it leaves. -/
structure Mouse where
  x : Option ℚ
  y : Option ℚ
  down : Bool

/-- A particle of the `ParticleBackground` canvas (App.tsx lines 40-77).
JavaScript numbers are embedded as rationals; `Math.hypot` is passed in as a
parameter where needed. -/
structure Node where
  x : ℚ
  y : ℚ
  ox : ℚ
  oy : ℚ
  vx : ℚ
  vy : ℚ
  r : ℚ
deriving DecidableEq

/-- The `Node` constructor (App.tsx lines 42-50): random position inside the
canvas and random radius, origin at the initial position, zero velocity.
`rand` supplies the successive `Math.random()` draws. -/
def mkNode (w h : ℚ) (rand : Nat → ℚ) (i : Nat) : Node :=
  let x := rand (3 * i) * w
  let y := rand (3 * i + 1) * h
  ⟨x, y, x, y, 0, 0, rand (3 * i + 2) * 2 + 7/10⟩

/-- `Array.from(\x7b length: 80 \x7d, () => new Node())` (App.tsx line 79). -/
def initNodes (w h : ℚ) (rand : Nat → ℚ) : List Node :=
  (List.range 80).map (mkNode w h rand)

/-- `Node.update` (App.tsx lines 51-69): mouse repulsion when within distance
260 (stronger while the button is down), integration, friction 0.96 and pull
back to the origin with factor 0.005. -/
def Node.update (hypot : ℚ → ℚ → ℚ) (mouse : Mouse) (n : Node) : Node :=
  let n :=
    match mouse.x, mouse.y with
    | some mx, some my =>
      let dx := mx - n.x
      let dy := my - n.y
      let d := hypot dx dy
      if d < 260 then
        let f := (260 - d) / 260
        let p := if mouse.down then f * 16 else f * (6/5)
        { n with vx := n.vx - dx * p * (9/50), vy := n.vy - dy * p * (9/50) }
      else n
    | _, _ => n
  let n := { n with x := n.x + n.vx, y := n.y + n.vy }
  let n := { n with vx := n.vx * (24/25), vy := n.vy * (24/25) }
  { n with x := n.x + (n.ox - n.x) * (1/200),
           y := n.y + (n.oy - n.y) * (1/200) }

/-- One `animate` frame's effect on the node array (App.tsx lines 81-107):
`nodes.forEach(n => \x7b n.update(); n.draw(); \x7d)` updates each node in
place; the subsequent line-drawing loop only reads the array. -/
def animateFrame (hypot : ℚ → ℚ → ℚ) (mouse : Mouse) (nodes : List Node) :
    List Node :=
  nodes.map (Node.update hypot mouse)

/-- The client view union type (App.tsx line 126). -/
inductive View
  | home | chat | voice | imagine | history | projects | grokpedia
deriving DecidableEq

/-- The seven views named by the specification. -/
def allViews : List View :=
  [.home, .chat, .voice, .imagine, .history, .projects, .grokpedia]

/-- `useState<...>('home')`: the initial view (App.tsx line 126). -/
def initialView : View := .home

/-- The target view of every `setView` call in App.tsx, in source order
(lines 279, 357, 368, 432, 505, 509, 513, 517, 521, 525, 563, 634, 660,
732). -/
def setViewCalls : List View :=
  [.chat, .chat, .home, .home,
   .chat, .voice, .imagine, .projects, .history, .grokpedia,
   .voice, .voice, .chat, .chat]

/-!  Helper lemmas about the list operations used by the handlers. -/

theorem find_append_of_none {α} (p : α → Bool) (l₁ l₂ : List α)
    (h : l₁.find? p = none) : (l₁ ++ l₂).find? p = l₂.find? p := by
  induction l₁ with
  | nil => simp
  | cons a t ih =>
    cases hpa : p a with
    | true =>
      rw [List.find?_cons_of_pos _ hpa] at h
      exact absurd h (by simp)
    | false =>
      rw [List.find?_cons_of_neg _ (by simp [hpa])] at h
      rw [List.cons_append, List.find?_cons_of_neg _ (by simp [hpa])]
      exact ih h

theorem mem_insertSorted {α} (le : α → α → Bool) (a b : α) (l : List α) :
    b ∈ insertSorted le a l ↔ b = a ∨ b ∈ l := by
  induction l with
  | nil => simp [insertSorted]
  | cons c t ih =>
    by_cases hle : le a c = true
    · simp [insertSorted, hle]
    · simp [insertSorted, hle, ih]
      tauto

theorem mem_sortBy {α} (le : α → α → Bool) (a : α) (l : List α) :
    a ∈ sortBy le l ↔ a ∈ l := by
  induction l with
  | nil => simp [sortBy]
  | cons c t ih =>
    simp [sortBy, List.foldr] at ih ⊢
    rw [mem_insertSorted]
    tauto

/-- Claim C1: an authenticated chat request with message text follows the
pass-through cycle — the user's message is saved, the formatted history plus
the new text go to the model (hypothesis `hmodel` fixes the model's answer on
exactly that input), the reply is saved as an 'ai' message in the same
conversation, and the response body's text field is exactly the reply. -/
theorem chat_passthrough_C1
    (st : ServerState) (uid convId : Nat) (text : String)
    (history : List HistMsg) (now : Nat)
    (sendMessage : List GeminiMsg → String → Except String String)
    (reply : String) (htext : text ≠ "")
    (hmodel : sendMessage (formatHistory history) text = .ok reply) :
    chatHandler st uid convId text history now sendMessage =
      ({ st with
          messages := st.messages ++
            [⟨convId, uid, "user", text, now⟩, ⟨convId, uid, "ai", reply, now⟩],
          conversations := st.conversations.map (fun c =>
            if c.id = convId then { c with updatedAt := now } else c) },
        .ok ⟨reply⟩) := by
  simp [chatHandler, htext, hmodel]

/-- Concrete run of `chat_passthrough_C1` on an empty store. -/
theorem chat_passthrough_C1_witness :
    chatHandler ⟨[], [], [], [], []⟩ 1 2 "hi" [⟨"user", "prev"⟩] 5
        (fun _ _ => .ok "reply") =
      (⟨[], [], [⟨2, 1, "user", "hi", 5⟩, ⟨2, 1, "ai", "reply", 5⟩], [], []⟩,
        .ok ⟨"reply"⟩) := by
  exact chat_passthrough_C1 ⟨[], [], [], [], []⟩ 1 2 "hi" [⟨"user", "prev"⟩] 5
    (fun _ _ => .ok "reply") "reply" (by decide) rfl

/-- Claim C8: when the model call throws after the user message was saved,
the chat handler answers 500 with the generic error body, yet the saved user
message and the conversation-timestamp update remain in the final state. -/
theorem chat_not_atomic_C8
    (st : ServerState) (uid convId : Nat) (text : String)
    (history : List HistMsg) (now : Nat)
    (sendMessage : List GeminiMsg → String → Except String String)
    (emsg : String) (htext : text ≠ "")
    (hmodel : sendMessage (formatHistory history) text = .error emsg) :
    (chatHandler st uid convId text history now sendMessage).2 =
        .err 500 "Failed to get AI response" ∧
      (⟨convId, uid, "user", text, now⟩ : Message) ∈
        (chatHandler st uid convId text history now sendMessage).1.messages ∧
      (chatHandler st uid convId text history now sendMessage).1.conversations =
        st.conversations.map (fun c =>
          if c.id = convId then { c with updatedAt := now } else c) := by
  simp [chatHandler, htext, hmodel]

/-- Concrete run of `chat_not_atomic_C8`: a failing model call leaves the
saved user message and the refreshed conversation behind. -/
theorem chat_not_atomic_C8_witness :
    (chatHandler ⟨[], [⟨2, 1, "New Chat", 0⟩], [], [], []⟩ 1 2 "hi" [] 5
          (fun _ _ => .error "boom")).2 =
        .err 500 "Failed to get AI response" ∧
      (⟨2, 1, "user", "hi", 5⟩ : Message) ∈
        (chatHandler ⟨[], [⟨2, 1, "New Chat", 0⟩], [], [], []⟩ 1 2 "hi" [] 5
          (fun _ _ => .error "boom")).1.messages ∧
      (chatHandler ⟨[], [⟨2, 1, "New Chat", 0⟩], [], [], []⟩ 1 2 "hi" [] 5
          (fun _ _ => .error "boom")).1.conversations =
        [⟨2, 1, "New Chat", 0⟩].map (fun c =>
          if c.id = 2 then { c with updatedAt := 5 } else c) := by
  exact chat_not_atomic_C8 ⟨[], [⟨2, 1, "New Chat", 0⟩], [], [], []⟩ 1 2 "hi"
    [] 5 (fun _ _ => .error "boom") "boom" (by decide) rfl

/-- Claim C7: a login whose email matches no user and a login whose email
matches a user but whose password fails the bcrypt check receive the very
same response, 401 with body error "Invalid credentials"; likewise the SQLite
login answers that same response whenever its email-and-password query finds
no row, whatever the cause. -/
theorem login_indistinguishable_C7
    (st : ServerState) (e1 p1 e2 p2 : String) (u : User)
    (susers : List SUser) (e3 p3 : String)
    (h1 : st.users.find? (fun v => v.email == e1) = none)
    (h2 : st.users.find? (fun v => v.email == e2) = some u)
    (h3 : bcryptCompare p2 u.password = false)
    (h4 : susers.find? (fun v =>
      v.email == e3 && v.password == StoredPassword.plain p3) = none) :
    loginHandler st e1 p1 = .err 401 "Invalid credentials" ∧
      loginHandler st e2 p2 = .err 401 "Invalid credentials" ∧
      loginHandler st e1 p1 = loginHandler st e2 p2 ∧
      sqliteLogin susers e3 p3 = .err 401 "Invalid credentials" := by
  refine ⟨?_, ?_, ?_, ?_⟩
  · simp [loginHandler, h1]
  · simp [loginHandler, h2, h3]
  · simp [loginHandler, h1, h2, h3]
  · simp [sqliteLogin, h4]

/-- Concrete run of `login_indistinguishable_C7`: unknown email versus wrong
password against a one-user store, and a wrong password against the SQLite
store. -/
theorem login_indistinguishable_C7_witness :
    loginHandler ⟨[⟨1, "Bob", "bob@x.com", .hashed "secret", "#4a90e2"⟩],
        [], [], [], []⟩ "nobody@x.com" "w" = .err 401 "Invalid credentials" ∧
      loginHandler ⟨[⟨1, "Bob", "bob@x.com", .hashed "secret", "#4a90e2"⟩],
        [], [], [], []⟩ "bob@x.com" "wrong" = .err 401 "Invalid credentials" ∧
      loginHandler ⟨[⟨1, "Bob", "bob@x.com", .hashed "secret", "#4a90e2"⟩],
          [], [], [], []⟩ "nobody@x.com" "w" =
        loginHandler ⟨[⟨1, "Bob", "bob@x.com", .hashed "secret", "#4a90e2"⟩],
          [], [], [], []⟩ "bob@x.com" "wrong" ∧
      sqliteLogin [⟨1, "Bob", "bob@x.com", .plain "secret", "#4a90e2"⟩]
        "bob@x.com" "wrong" = .err 401 "Invalid credentials" := by
  exact login_indistinguishable_C7
    ⟨[⟨1, "Bob", "bob@x.com", .hashed "secret", "#4a90e2"⟩], [], [], [], []⟩
    "nobody@x.com" "w" "bob@x.com" "wrong"
    ⟨1, "Bob", "bob@x.com", .hashed "secret", "#4a90e2"⟩
    [⟨1, "Bob", "bob@x.com", .plain "secret", "#4a90e2"⟩] "bob@x.com" "wrong"
    (by decide) (by decide) (by decide) (by decide)

/-- Claim C2 fails as stated: the SQLite signup stores the raw password
verbatim — not a bcrypt hash — and the SQLite login grants access by
plaintext equality of the stored column with the request password. -/
theorem sqlite_plaintext_C2_counterexample :
    (sqliteSignup [] "Alice" "alice@x.com" "hunter2" 0 1).1 =
        [⟨1, "Alice", "alice@x.com", .plain "hunter2", "#4a90e2"⟩] ∧
      isBcryptHashed (StoredPassword.plain "hunter2") = false ∧
      sqliteLogin [⟨1, "Alice", "alice@x.com", .plain "hunter2", "#4a90e2"⟩]
        "alice@x.com" "hunter2" = .ok ⟨1, "Alice", "alice@x.com", "#4a90e2"⟩ := by
  refine ⟨by decide, rfl, by decide⟩

/-- Claim C2 amended: the bearer-token middleware answers 401 on a missing
token and 403 on a failed verification; the mongoose servers store every new
password as a bcrypt hash and a successful mongoose login implies a
successful `bcrypt.compare` against the stored hash; the SQLite variant,
however, stores the new password as plaintext. -/
theorem auth_layer_C2_amended :
    (∀ verify : String → Option Nat,
      authenticateToken none verify =
        .denied 401 "Access denied. Token missing.") ∧
    (∀ (t : String) (verify : String → Option Nat), verify t = none →
      authenticateToken (some t) verify = .denied 403 "Invalid token.") ∧
    (∀ (st : ServerState) (n e p : String) (r fid : Nat) (u : User),
      u ∈ (signupHandler st n e p r fid).1.users →
      u ∈ st.users ∨ isBcryptHashed u.password = true) ∧
    (∀ (st : ServerState) (e p : String) (out : AuthOk),
      loginHandler st e p = .ok out →
      ∃ u, st.users.find? (fun v => v.email == e) = some u ∧
        bcryptCompare p u.password = true) ∧
    (∀ (users : List SUser) (n e p : String) (r fid : Nat) (u : SUser),
      u ∈ (sqliteSignup users n e p r fid).1 →
      u ∈ users ∨ u.password = .plain p) := by
  refine ⟨fun verify => rfl, fun t verify hv => ?_, ?_, ?_, ?_⟩
  · simp [authenticateToken, hv]
  · intro st n e p r fid u hu
    by_cases hcond : (n = "" ∨ e = "" ∨ p = "")
    · simp [signupHandler, hcond] at hu
      exact Or.inl hu
    · cases hfind : st.users.find? (fun v => v.email == e) with
      | some v =>
        simp [signupHandler, hcond, hfind] at hu
        exact Or.inl hu
      | none =>
        simp [signupHandler, hcond, hfind] at hu
        rcases hu with hu | hu
        · exact Or.inl hu
        · right
          rw [hu]
          rfl
  · intro st e p out hout
    cases hfind : st.users.find? (fun v => v.email == e) with
    | none => simp [loginHandler, hfind] at hout
    | some u =>
      cases hcmp : bcryptCompare p u.password with
      | false => simp [loginHandler, hfind, hcmp] at hout
      | true => exact ⟨u, hfind ▸ rfl, hcmp⟩
  · intro users n e p r fid u hu
    by_cases hcond : (n = "" ∨ e = "" ∨ p = "")
    · simp [sqliteSignup, hcond] at hu
      exact Or.inl hu
    · by_cases hdup : users.any (fun v => v.email == e) = true
      · simp [sqliteSignup, hcond, hdup] at hu
        exact Or.inl hu
      · simp [sqliteSignup, hcond, hdup] at hu
        rcases hu with hu | hu
        · exact Or.inl hu
        · right
          rw [hu]

/-- Concrete runs of `auth_layer_C2_amended`: the middleware's 401 and 403
answers at concrete tokens. -/
theorem auth_layer_C2_amended_witness :
    authenticateToken none (fun _ => some 1) =
        .denied 401 "Access denied. Token missing." ∧
      authenticateToken (some "tok") (fun _ => none) =
        .denied 403 "Invalid token." := by
  exact ⟨auth_layer_C2_amended.1 (fun _ => some 1),
    auth_layer_C2_amended.2.1 "tok" (fun _ => none) rfl⟩

/-- Claim C3 fails as stated: the SQLite signup catch has extra recovery
logic — on a unique-constraint exception it answers 400 "Email already
exists", which is not a 5xx status. -/
theorem sqlite_signup_catch_C3_counterexample :
    sqliteSignupCatch "SQLITE_CONSTRAINT_UNIQUE" =
        (400, "Email already exists") ∧
      ¬ 500 ≤ (sqliteSignupCatch "SQLITE_CONSTRAINT_UNIQUE").1 := by
  refine ⟨by decide, by decide⟩

/-- Claim C3 amended: every catch block answers with a JSON body holding a
single error-message string; all of them use status 500, except the SQLite
signup catch, which answers 400 "Email already exists" on a unique-constraint
error code and 500 otherwise. -/
theorem catch_responses_C3_amended :
    mongooseCatchResponses.all (fun r => r.1 == 500) = true ∧
      sqliteOtherCatchResponses.all (fun r => r.1 == 500) = true ∧
      sqliteSignupCatch "SQLITE_CONSTRAINT_UNIQUE" =
        (400, "Email already exists") ∧
      ∀ c : String, c ≠ "SQLITE_CONSTRAINT_UNIQUE" →
        sqliteSignupCatch c = (500, "Failed to sign up") := by
  refine ⟨by decide, by decide, by decide, fun c hc => ?_⟩
  simp [sqliteSignupCatch, hc]

/-- Concrete run of `catch_responses_C3_amended`: a foreign-key error code in
the SQLite signup catch still yields the generic 500. -/
theorem catch_responses_C3_amended_witness :
    sqliteSignupCatch "SQLITE_CONSTRAINT_FOREIGNKEY" =
      (500, "Failed to sign up") := by
  exact catch_responses_C3_amended.2.2.2 "SQLITE_CONSTRAINT_FOREIGNKEY"
    (by decide)

/-- Claim C4 fails as stated on the server.ts variant: even when the model
call succeeds and returns inline image data, the handler answers 501 with an
error body instead of an image URL. -/
theorem generate_image_C4_counterexample :
    generateImageHandlerLegacy "a cat"
        (fun _ => .ok (some [.inlinePart "image/png" "QUJD"])) =
      .err 501
        "Image generation not yet implemented on backend with this model." := by
  rfl

/-- Claim C4 amended: the part_001 handler does proxy the prompt and answer a
JSON body whose imageUrl is the data URI built from the model's inline image
data; the server.ts handler never answers a success body, replying 501 after
any successful model call. -/
theorem generate_image_C4_amended
    (prompt : String) (hp : prompt ≠ "")
    (generateContent : String → Except String (Option (List GenPart)))
    (parts : List GenPart) (m d : String)
    (hres : generateContent prompt = .ok (some parts))
    (hfind : findInline parts = some (m, d)) :
    generateImageHandler prompt generateContent =
        .ok ⟨"data:" ++ m ++ ";base64," ++ d⟩ ∧
      generateImageHandlerLegacy prompt generateContent =
        .err 501
          "Image generation not yet implemented on backend with this model." := by
  constructor
  · simp [generateImageHandler, hp, hres, hfind]
  · simp [generateImageHandlerLegacy, hp, hres]

/-- Concrete run of `generate_image_C4_amended` on a one-part model reply. -/
theorem generate_image_C4_amended_witness :
    generateImageHandler "a cat"
        (fun _ => .ok (some [.inlinePart "image/png" "QUJD"])) =
        .ok ⟨"data:image/png;base64,QUJD"⟩ ∧
      generateImageHandlerLegacy "a cat"
        (fun _ => .ok (some [.inlinePart "image/png" "QUJD"])) =
        .err 501
          "Image generation not yet implemented on backend with this model." := by
  exact generate_image_C4_amended "a cat" (by decide)
    (fun _ => .ok (some [.inlinePart "image/png" "QUJD"]))
    [.inlinePart "image/png" "QUJD"] "image/png" "QUJD" rfl rfl

/-- Claim C5: each of the five entity kinds is persisted, and every
successful creation leaves a record that the corresponding fetch by the same
user returns — a fresh signup can immediately log in, a created conversation
appears in GET /api/conversations, both messages saved by a successful chat
request appear in GET /api/messages for that conversation, and created
projects and tasks appear in their GET lists. -/
theorem persistence_C5 :
    (∀ (st : ServerState) (n e p : String) (r fid : Nat),
      n ≠ "" → e ≠ "" → p ≠ "" →
      st.users.find? (fun u => u.email == e) = none →
      loginHandler (signupHandler st n e p r fid).1 e p =
        .ok ⟨fid, n, e,
          (signupColors.get? (r % signupColors.length)).getD "#4a90e2"⟩) ∧
    (∀ (st : ServerState) (uid : Nat) (title : String) (now fid : Nat),
      (⟨fid, if title = "" then "New Chat" else title, now⟩ : ConvSummary) ∈
        getConversations (postConversation st uid title now fid).1 uid) ∧
    (∀ (st : ServerState) (uid convId : Nat) (text : String)
        (history : List HistMsg) (now : Nat)
        (send : List GeminiMsg → String → Except String String)
        (reply : String), text ≠ "" →
      send (formatHistory history) text = .ok reply →
      (⟨convId, uid, "user", text, now⟩ : Message) ∈
          getMessages (chatHandler st uid convId text history now send).1
            uid convId ∧
        (⟨convId, uid, "ai", reply, now⟩ : Message) ∈
          getMessages (chatHandler st uid convId text history now send).1
            uid convId) ∧
    (∀ (st : ServerState) (uid : Nat) (nm ds ct : String) (now fid : Nat),
      (⟨fid, uid, nm, ds, ct, now⟩ : Project) ∈
        getProjects (postProject st uid nm ds ct now fid).1 uid) ∧
    (∀ (st : ServerState) (uid : Nat) (title : String) (now fid : Nat),
      (⟨fid, uid, title, false, now⟩ : TaskItem) ∈
        getTasks (postTask st uid title now fid).1 uid) := by
  refine ⟨?_, ?_, ?_, ?_, ?_⟩
  · intro st n e p r fid hn he hp hfind
    have husers : (signupHandler st n e p r fid).1.users =
        st.users ++ [⟨fid, n, e, bcryptHash p,
          (signupColors.get? (r % signupColors.length)).getD "#4a90e2"⟩] := by
      simp [signupHandler, hn, he, hp, hfind]
    unfold loginHandler
    rw [husers, find_append_of_none _ _ _ hfind]
    simp [List.find?, bcryptCompare, bcryptHash]
  · intro st uid title now fid
    refine List.mem_map.mpr
      ⟨⟨fid, uid, if title = "" then "New Chat" else title, now⟩, ?_, rfl⟩
    rw [conversationsFor.eq_def, mem_sortBy]
    refine List.mem_filter.mpr ⟨?_, by simp⟩
    simp [postConversation]
  · intro st uid convId text history now send reply htext hmodel
    have hmsgs : (chatHandler st uid convId text history now send).1.messages =
        st.messages ++ [⟨convId, uid, "user", text, now⟩,
          ⟨convId, uid, "ai", reply, now⟩] := by
      simp [chatHandler, htext, hmodel]
    constructor
    · rw [getMessages.eq_def, mem_sortBy]
      refine List.mem_filter.mpr ⟨?_, by simp⟩
      rw [hmsgs]
      simp
    · rw [getMessages.eq_def, mem_sortBy]
      refine List.mem_filter.mpr ⟨?_, by simp⟩
      rw [hmsgs]
      simp
  · intro st uid nm ds ct now fid
    rw [getProjects.eq_def, mem_sortBy]
    refine List.mem_filter.mpr ⟨?_, by simp⟩
    simp [postProject]
  · intro st uid title now fid
    rw [getTasks.eq_def, mem_sortBy]
    refine List.mem_filter.mpr ⟨?_, by simp⟩
    simp [postTask]

/-- Concrete runs of `persistence_C5` on an empty store: signup then login,
and a freshly created conversation fetched back. -/
theorem persistence_C5_witness :
    loginHandler
        (signupHandler ⟨[], [], [], [], []⟩ "Alice" "a@x.com" "pw" 0 1).1
        "a@x.com" "pw" = .ok ⟨1, "Alice", "a@x.com", "#4a90e2"⟩ ∧
      (⟨3, "New Chat", 7⟩ : ConvSummary) ∈
        getConversations
          (postConversation ⟨[], [], [], [], []⟩ 2 "" 7 3).1 2 := by
  constructor
  · exact persistence_C5.1 ⟨[], [], [], [], []⟩ "Alice" "a@x.com" "pw" 0 1
      (by decide) (by decide) (by decide) rfl
  · exact persistence_C5.2.1 ⟨[], [], [], [], []⟩ 2 "" 7 3

/-- Claim C6: every record returned by the authenticated list endpoints —
conversations, messages, projects, tasks — carries the requesting user's id,
so list operations never surface another user's records. -/
theorem user_isolation_C6 (st : ServerState) (uid : Nat) :
    (∀ c ∈ conversationsFor st uid, c.userId = uid) ∧
      (∀ convId : Nat, ∀ m ∈ getMessages st uid convId,
        m.userId = uid ∧ m.conversationId = convId) ∧
      (∀ p ∈ getProjects st uid, p.userId = uid) ∧
      (∀ t ∈ getTasks st uid, t.userId = uid) := by
  refine ⟨?_, ?_, ?_, ?_⟩
  · intro c hc
    rw [conversationsFor.eq_def, mem_sortBy] at hc
    have := (List.mem_filter.mp hc).2
    simpa using this
  · intro convId m hm
    rw [getMessages.eq_def, mem_sortBy] at hm
    have := (List.mem_filter.mp hm).2
    simpa using this
  · intro p hp
    rw [getProjects.eq_def, mem_sortBy] at hp
    have := (List.mem_filter.mp hp).2
    simpa using this
  · intro t ht
    rw [getTasks.eq_def, mem_sortBy] at ht
    have := (List.mem_filter.mp ht).2
    simpa using this

/-- Concrete run of `user_isolation_C6` on a one-record-per-kind store. -/
theorem user_isolation_C6_witness :
    (⟨1, 7, "t", 0⟩ : Conversation).userId = 7 ∧
      ((⟨2, 7, "user", "x", 0⟩ : Message).userId = 7 ∧
        (⟨2, 7, "user", "x", 0⟩ : Message).conversationId = 2) ∧
      (⟨3, 7, "p", "d", "c", 0⟩ : Project).userId = 7 ∧
      (⟨4, 7, "task", false, 0⟩ : TaskItem).userId = 7 := by
  refine ⟨?_, ?_, ?_, ?_⟩
  · exact (user_isolation_C6 ⟨[], [⟨1, 7, "t", 0⟩], [⟨2, 7, "user", "x", 0⟩],
      [⟨3, 7, "p", "d", "c", 0⟩], [⟨4, 7, "task", false, 0⟩]⟩ 7).1
      ⟨1, 7, "t", 0⟩ (by decide)
  · exact (user_isolation_C6 ⟨[], [⟨1, 7, "t", 0⟩], [⟨2, 7, "user", "x", 0⟩],
      [⟨3, 7, "p", "d", "c", 0⟩], [⟨4, 7, "task", false, 0⟩]⟩ 7).2.1 2
      ⟨2, 7, "user", "x", 0⟩ (by decide)
  · exact (user_isolation_C6 ⟨[], [⟨1, 7, "t", 0⟩], [⟨2, 7, "user", "x", 0⟩],
      [⟨3, 7, "p", "d", "c", 0⟩], [⟨4, 7, "task", false, 0⟩]⟩ 7).2.2.1
      ⟨3, 7, "p", "d", "c", 0⟩ (by decide)
  · exact (user_isolation_C6 ⟨[], [⟨1, 7, "t", 0⟩], [⟨2, 7, "user", "x", 0⟩],
      [⟨3, 7, "p", "d", "c", 0⟩], [⟨4, 7, "task", false, 0⟩]⟩ 7).2.2.2
      ⟨4, 7, "task", false, 0⟩ (by decide)

/-- Claim C9: the particle array is created once with exactly 80 nodes, and
an animation frame neither adds nor removes nodes — it has the same length as
before and its i-th node is exactly the update of the previous i-th node. -/
theorem particle_fixed_array_C9 (w h : ℚ) (rand : Nat → ℚ)
    (hypot : ℚ → ℚ → ℚ) (mouse : Mouse) (nodes : List Node) (i : Nat) :
    (initNodes w h rand).length = 80 ∧
      (animateFrame hypot mouse nodes).length = nodes.length ∧
      (animateFrame hypot mouse nodes)[i]? =
        (nodes[i]?).map (Node.update hypot mouse) := by
  refine ⟨by simp [initNodes], by simp [animateFrame], ?_⟩
  simp [animateFrame]

/-- Claim C10: the client view state starts at home, home is one of the seven
views, and every `setView` call in the client targets one of the seven views
home, chat, voice, imagine, history, projects, grokpedia. -/
theorem view_states_C10 :
    initialView = View.home ∧
      initialView ∈ allViews ∧
      setViewCalls.all (fun v => allViews.contains v) = true := by
  decide
